import Mathlib

/-!
Verification of the Sandboxed Interactive Session Engine of PRDBench
(`EvalAgent/code_eval_agent/mcp_tools.py`, `mcp_servers.py`, `config.py`).

The Python functions relevant to the claims are embedded shallowly:
pure string manipulation becomes Lean functions on `String`/`List Char`,
Python dictionaries become association lists, fallible code returns
`Except`, exceptions raised by library calls (`ValueError` from
`os.path.commonpath`, `IndexError` from `split()[0]`,
`UnboundLocalError` from reading an unassigned local) are `Except.error`
values, and the I/O performed by a call (spawned child process, the
wrapped `step` primitive, filesystem probes) is passed in as explicit
parameters describing its observable outcome.
-/

namespace PRDBench

/-! ### Python string primitives

Executable embeddings of the Python `str` operations used by
`mcp_tools.py`: `in` (substring test), `str.startswith`, `str.split()`
(first token), `str.split(sep)`, `str.lower`, and `sep.join`.  They are
written as structural recursion on `List Char` so that concrete
instances evaluate by `decide`/`rfl`.
-/

/-- Python `needle in hay` for `needle, hay : str` searched on char lists:
true iff `needle` occurs as a contiguous substring of `hay`. -/
def containsSub (hay needle : List Char) : Bool :=
  needle.isPrefixOf hay ||
    match hay with
    | [] => false
    | _ :: t => containsSub t needle

/-- Python `needle in hay` on `String`. -/
def pyIn (needle hay : String) : Bool :=
  containsSub hay.data needle.data

/-- Python `s.startswith(pre)`. -/
def pyStartswith (s pre : String) : Bool :=
  pre.data.isPrefixOf s.data

/-- Python `s.endswith(suf)`. -/
def pyEndswith (s suf : String) : Bool :=
  suf.data.reverse.isPrefixOf s.data.reverse

/-- Python truthiness of an `Optional[str]`: `None` and `""` are falsy. -/
def truthy : Option String → Bool
  | none => false
  | some s => s != ""

/-- Python `s.split()[0]`: drop leading whitespace, take the first maximal
run of non-whitespace characters; `IndexError` (modelled as `.error ()`)
when the string is empty or all whitespace. -/
def pyFirstToken (s : String) : Except Unit String :=
  match s.data.dropWhile Char.isWhitespace with
  | [] => .error ()
  | c :: t => .ok ⟨(c :: t).takeWhile (fun ch => ! ch.isWhitespace)⟩

/-- Helper for `pySplitSep`: accumulate the current piece (reversed). -/
def splitSepAux (sep : Char) : List Char → List Char → List String
  | [], acc => [⟨acc.reverse⟩]
  | c :: t, acc =>
      if c = sep then ⟨acc.reverse⟩ :: splitSepAux sep t []
      else splitSepAux sep t (c :: acc)

/-- Python `s.split(sep)` for a one-character separator: keeps empty
pieces, `"".split(sep) = [""]`. -/
def pySplitSep (s : String) (sep : Char) : List String :=
  splitSepAux sep s.data []

/-- Python `s.lower()` (ASCII range, which is all the config values use). -/
def pyLower (s : String) : String :=
  ⟨s.data.map Char.toLower⟩

/-- Python `sep.join(parts)` with separator `"/"`, as used by
`posixpath.commonpath`. -/
def joinSlash : List String → String
  | [] => ""
  | [c] => c
  | c :: cs => c ++ "/" ++ joinSlash cs

/-- The apostrophe character, used to render Python `str(list)`. -/
def squote : Char := Char.ofNat 39

/-- Python `str(list_of_str)`: e.g. `['ls', 'pwd']`. -/
def pyReprList (l : List String) : String :=
  "[" ++ String.intercalate ", "
    (l.map (fun s => squote.toString ++ s ++ squote.toString)) ++ "]"

/-! ### Configuration (`config.py`)

`WORKSPACE_DIR` defaults to `/tmp/code_agent_workspace` (line 63), is
absolute, so the `abspath` conversion at line 71 is the identity.
`SANDBOX_MODE` is the constant `True` (line 76).
`ENABLE_PATH_RESTRICTION` (line 80) parses the environment variable.
-/

def WORKSPACE_DIR : String := "/tmp/code_agent_workspace"

def SANDBOX_MODE : Bool := true

/-- `config.py` line 80:
`os.getenv('ENABLE_PATH_RESTRICTION', 'true').lower() == 'true'`;
the parameter is the environment variable's value (`none` when unset). -/
def enablePathRestriction (env : Option String) : Bool :=
  pyLower (env.getD "true") == "true"

/-- `mcp_tools.py` line 55: the fixed command allow-list. -/
def SAFE_COMMANDS : List String :=
  ["ls", "pwd", "echo", "cat", "head", "tail", "grep", "find",
   "python", "python3", "chmod", "cd", "pytest"]

/-- The sandbox rejection message built at `mcp_tools.py` lines 520/674:
`"The command you executed is not allowed in sandbox mode; Safe command
list: " + str(safe_commands)`. -/
def sandboxMsg : String :=
  "The command you executed is not allowed in sandbox mode; Safe command list: "
    ++ pyReprList SAFE_COMMANDS

/-- The gate expression shared by `run_system_command` (line 519) and the
interpreter-mode gate of `run_interactive_shell` (line 673):
`any(cmd in text for cmd in safe_commands)`. -/
def commandAllowed (text : String) : Bool :=
  SAFE_COMMANDS.any (fun c => pyIn c text)

/-- Spec-side definition, following the spec's words for
`is_command_allowed(command_text)`: true iff at least one fragment from
the fixed allow-list appears as a substring of the command text. -/
def claimedIsCommandAllowed (commandText : String) : Bool :=
  SAFE_COMMANDS.any (fun c => pyIn c commandText)

/-- Observable outcome of `run_system_command` up to the sandbox gate
(`mcp_tools.py` lines 516-520); actually running the subprocess is I/O
and is outside the gate decision the claims are about. -/
inductive RSCResult where
  | gateError (error : String)
  | executed
  deriving DecidableEq, Repr

/-- `mcp_tools.py` lines 516-521: the sandbox-mode command gate of
`run_system_command`. -/
def run_system_command (command : String) : RSCResult :=
  if SANDBOX_MODE && ! (SAFE_COMMANDS.any (fun c => pyIn c command)) then
    .gateError sandboxMsg
  else
    .executed

/-! ### Interactive shell session wrappers (`mcp_tools.py` lines 618-720)

`run_interactive_shell` keeps a per-session interpreter-mode flag in a
dictionary stored on the tool context (`python_env_state`, keyed by the
session id, which may be `None`).  The underlying `step`/`terminate`
primitives live in `code_eval_agent.interative_shell`; a call to `step`
is passed in as its observable outcome: `.ok r` for a normal return of
an (opaque) result `r`, `.error e` for a raised exception with message
`e`.
-/

/-- Key of the `python_env_state` dictionary: a session id, possibly
Python `None`. -/
abbrev SessionKey := Option String

/-- The `python_env_state` dictionary (insertion-ordered association
list, as a Python `dict`). -/
abbrev PyEnvState := List (SessionKey × Bool)

/-- Python `d[k]` lookup (as an `Option`). -/
def lookupState (st : PyEnvState) (k : SessionKey) : Option Bool :=
  (st.find? (fun e => e.1 == k)).map (·.2)

/-- Python `d[k] = b`: update in place, or append when absent. -/
def setState : PyEnvState → SessionKey → Bool → PyEnvState
  | [], k, b => [(k, b)]
  | (k', b') :: t, k, b =>
      if k' == k then (k, b) :: t else (k', b') :: setState t k b

/-- Result dictionary of `run_interactive_shell` /
`start_interative_shell`.  `stepOk r` passes through a successful `step`
result unchanged; `stepError` is the dictionary built in the `except`
branch, whose `output` field is `some s` for the Python string `s` and
`none` for Python `None`. -/
inductive RISResult where
  | gateError (error : String)
  | stepOk (r : String)
  | stepError (error : String) (session_id : Option String)
      (output : Option String) (waiting : Bool) (finished : Bool)
  deriving DecidableEq, Repr

/-- Shared tail of `run_interactive_shell` (lines 676-698): the
interpreter-mode flag update followed by the guarded `step` call. -/
def risAfterGate (st : PyEnvState) (sid : SessionKey) (ui : Option String)
    (stepOutcome : Except String String) : PyEnvState × Except Unit RISResult :=
  let st2 :=
    if truthy ui && pyStartswith (ui.getD "") "python" then setState st sid true
    else if ui == some "exit" then setState st sid false
    else st
  match stepOutcome with
  | .ok r => (st2, .ok (.stepOk r))
  | .error e => (st2, .ok (.stepError e sid (some "") false true))

/-- `mcp_tools.py` lines 645-698: `run_interactive_shell`.  Returns the
updated `python_env_state` and the returned dictionary; `.error ()` as
the second component is an uncaught `IndexError` from
`user_input.split()[0]` (line 672) on an all-whitespace input. -/
def run_interactive_shell (st : PyEnvState) (sid : SessionKey)
    (ui : Option String) (stepOutcome : Except String String) :
    PyEnvState × Except Unit RISResult :=
  -- lines 664-667: default-insert the session key, read the flag
  let st1 := if (lookupState st sid).isSome then st else setState st sid false
  let isInPython := (lookupState st1 sid).getD false
  -- lines 670-674: the interpreter-mode safety gate
  if isInPython && truthy ui then
    match pyFirstToken (ui.getD "") with
    | .error _ => (st1, .error ())
    | .ok tok =>
        if ! (SAFE_COMMANDS.any (fun c => pyIn c tok)) then
          (st1, .ok (.gateError sandboxMsg))
        else risAfterGate st1 sid ui stepOutcome
  else risAfterGate st1 sid ui stepOutcome

/-- `mcp_tools.py` lines 618-641: `start_interative_shell`.  In the
`except` branch `session_id` is the local `None`, and the `output` field
is set to `session_id` (hence Python `None`, not `""`). -/
def start_interative_shell (stepOutcome : Except String String) : RISResult :=
  match stepOutcome with
  | .ok r => .stepOk r
  | .error e => .stepError e none none false true

/-! ### Session termination (`kill_shell_session`, lines 700-720)

`interative_shell.terminate` itself is not in the source tree (only
its importing module and callers are), so it is modelled from
the spec. -/

/-- Modelled from the spec: `interative_shell.terminate(session_id)` —
the Session Registry's forcible terminate, which the spec's §4.3/§7 say
"forcibly terminates and removes the session; fails with
`SessionNotFoundError` if absent" (`SessionNotFoundError` is listed in
the spec's error taxonomy as an exception raised for caller misuse).
The registry is the list of live session ids; on success the session is
removed. -/
def terminate (sessions : List String) (sid : String) :
    Except String (List String) :=
  if sessions.contains sid then .ok (sessions.filter (fun s => s != sid))
  else .error ("SessionNotFoundError: " ++ sid)

/-- Result dictionary of `kill_shell_session`: either the success
dictionary `{message, output}` or the caught-exception dictionary
`{error, output: ""}`. -/
inductive KillResult where
  | killed (message : String) (output : String)
  | errored (error : String) (output : String)
  deriving DecidableEq, Repr

/-- `mcp_tools.py` lines 700-720: `kill_shell_session` wraps `terminate`
in `try/except` and always returns a dictionary. -/
def kill_shell_session (sessions : List String) (sid : String) :
    List String × KillResult :=
  match terminate sessions sid with
  | .ok sessions' =>
      (sessions', .killed ("Session " ++ sid ++ " has been terminated")
        ("Session " ++ sid ++ " has been terminated"))
  | .error e => (sessions, .errored e "")

/-! ### Path validators (`mcp_tools.py` lines 261-300)

`validate_write_path` calls `os.path.commonpath([file_path, allowed])`,
which on POSIX splits both paths on `/`, discards empty and `"."`
components, and raises `ValueError` when one path is absolute and the
other relative.  That stdlib function is embedded below following
CPython's `posixpath.commonpath` (specialised to two paths, where the
`min`/`max` loop computes the longest common component prefix).
-/

/-- The filtered component list of a POSIX path:
`[c for c in path.split('/') if c and c != '.']`. -/
def pathComps (s : String) : List String :=
  (pySplitSep s '/').filter (fun c => c != "" && c != ".")

/-- Longest common prefix of two component lists (what
`posixpath.commonpath`'s loop over `min`/`max` computes for two paths). -/
def comPre : List String → List String → List String
  | a :: as, b :: bs => if a = b then a :: comPre as bs else []
  | _, _ => []

/-- CPython `posixpath.commonpath([p, q])`: `.error ()` is the
`ValueError("Can't mix absolute and relative paths")`. -/
def commonpath (p q : String) : Except Unit String :=
  if pyStartswith p "/" == pyStartswith q "/" then
    .ok ((if pyStartswith p "/" then "/" else "")
      ++ joinSlash (comPre (pathComps p) (pathComps q)))
  else .error ()

/-- CPython `posixpath.join(a, b)` for two components. -/
def pyJoin2 (a b : String) : String :=
  if pyStartswith b "/" then b
  else if a == "" || pyEndswith a "/" then a ++ b
  else a ++ "/" ++ b

/-- `os.path.join(WORKSPACE_DIR, str(i), 'reports')`
(`mcp_tools.py` line 266). -/
def allowedRoot (i : Nat) : String :=
  pyJoin2 (pyJoin2 WORKSPACE_DIR (toString i)) "reports"

/-- `mcp_tools.py` line 266: the allowed write roots for `i` in
`range(1, 51)`. -/
def allowedWritePaths : List String :=
  (List.range' 1 50).map allowedRoot

/-- Python `any(...)` over a generator whose element test may raise:
short-circuits on the first `True`, propagates the first exception. -/
def anyE : List String → (String → Except Unit Bool) → Except Unit Bool
  | [], _ => .ok false
  | a :: as, f =>
    match f a with
    | .error e => .error e
    | .ok true => .ok true
    | .ok false => anyE as f

/-- `mcp_tools.py` lines 261-273: `validate_write_path`.  The first
parameter is the (configuration-time) `ENABLE_PATH_RESTRICTION` value;
`.error ()` is a `ValueError` escaping from `os.path.commonpath`. -/
def validate_write_path (enableRestriction : Bool) (file_path : String) :
    Except Unit Bool :=
  if enableRestriction then
    anyE allowedWritePaths
      (fun allowed => (commonpath file_path allowed).map (fun c => c == allowed))
  else .ok true

/-- `mcp_tools.py` lines 276-300: `validate_read_file_path`.  `resolve`
is the filesystem's `Path(...).resolve()` rendered to a string (an
oracle parameter: path resolution consults the filesystem), and it is
fallible: `Path.resolve` raises `ValueError` on malformed paths such as
one with an embedded NUL byte, and the function has no handler, so a
resolution error propagates (`.error ()`).  The workspace root is
resolved first (line 289), then the candidate path (line 290). -/
def validate_read_file_path (resolve : String → Except Unit String)
    (file_path : String) : Except Unit Bool :=
  if pyStartswith file_path "/tmp" then .ok true
  else if ! pyStartswith file_path "/" then .ok true
  else if SANDBOX_MODE then
    match resolve WORKSPACE_DIR with
    | .error e => .error e
    | .ok ws =>
      match resolve file_path with
      | .error e => .error e
      | .ok fp =>
          if pyStartswith fp ws || pyStartswith fp "/tmp" then .ok true
          else .ok false
  else .ok true

/-- Outcome of the guard prefix of `write_file` / `delete_file`
(`mcp_tools.py` lines 347-349 and 377-378): either the structured
rejection or fall-through to the filesystem operation. -/
inductive GuardOutcome where
  | rejected (error : String)
  | proceeded
  deriving DecidableEq, Repr

/-- `mcp_tools.py` lines 347-349: the `validate_write_path` guard of
`write_file` (a `ValueError` from the validator propagates). -/
def write_file_gate (enableRestriction : Bool) (file_path : String) :
    Except Unit GuardOutcome :=
  (validate_write_path enableRestriction file_path).map (fun ok =>
    if ok then .proceeded
    else .rejected ("This file is not allowed to be modified! If the src code could not handle the case, you can give 0 as the result. You can not modify the code file and metric files."))

/-- `mcp_tools.py` lines 377-378: the same guard in `delete_file`. -/
def delete_file_gate (enableRestriction : Bool) (file_path : String) :
    Except Unit GuardOutcome :=
  (validate_write_path enableRestriction file_path).map (fun ok =>
    if ok then .proceeded
    else .rejected "This file is not allowed to be deleted! You can not delete the code file and metric files.")

/-- *Lexical* containment: the path is absolute and the components of
`root` are a prefix of its own, where `pathComps` discards only `""`
and `"."` and keeps `".."` as an ordinary component.  This is exactly
the containment the code's unresolved `os.path.commonpath` check
computes — it is NOT the spec's canonical "lies under" (which resolves
the path to its canonical absolute form first): a `..`-traversal path
below a root is lexically contained although its canonical location is
elsewhere.  See `canonLiesUnder` for the canonical reading. -/
def liesUnder (p root : String) : Prop :=
  pyStartswith p "/" = true ∧ pathComps root <+: pathComps p

instance (p root : String) : Decidable (liesUnder p root) := by
  unfold liesUnder; infer_instance

/-- Lexical resolution of `".."` components over an absolute path's
component list: `".."` pops the previous component (at the root it is a
no-op, as in POSIX `/.. = /`). -/
def canonComps (l : List String) : List String :=
  l.foldl (fun acc c => if c = ".." then acc.dropLast else acc ++ [c]) []

/-- Spec-side definition following the claim/spec's canonical reading of
"the path lies under the root": the path is absolute and its canonical
component list — with `".."` segments resolved; for a path that
traverses no symbolic link this coincides with `Path.resolve` — extends
the root's components. -/
def canonLiesUnder (p root : String) : Prop :=
  pyStartswith p "/" = true ∧ pathComps root <+: canonComps (pathComps p)

instance (p root : String) : Decidable (canonLiesUnder p root) := by
  unfold canonLiesUnder; infer_instance

/-! ### The Judge harness (`mcp_tools.py` lines 833-933)

The child process's observable behaviour in one `judge` run is a
`JudgeEnv`: its final `exitstatus` (`none` is Python `None`, e.g. death
by signal), whether each of the two `expect(EOF)` calls timed out, the
`child.before` buffer, and the transcript text read back from the log
file at the end.  The success classification at line 914 references the
local `last_output` before any assignment to it (the only assignment,
line 917, is inside the `else` of that very `if`), so whenever the first
two disjuncts are false, evaluating the condition raises
`UnboundLocalError`, which the `except Exception` handler at line 922
swallows without touching `result`.
-/

/-- Observable behaviour of the spawned child in one `judge` run. -/
structure JudgeEnv where
  exitstatus : Option Int
  eofTimeout1 : Bool
  eofTimeout2 : Bool
  before : Option String
  logContent : String
  deriving DecidableEq, Repr

/-- The `result` dictionary returned by `judge`. -/
structure JudgeResult where
  success : Bool
  log : String
  error : Option String
  deriving DecidableEq, Repr

/-- A `judge` run's outcome: the returned dictionary plus whether
`pexpect.spawn` was reached. -/
structure JudgeOutcome where
  result : JudgeResult
  spawned : Bool
  deriving DecidableEq, Repr

/-- Python `str(x)` for an `Optional[str]` (`str(None) = "None"`). -/
def pyStrOptStr : Option String → String
  | none => "None"
  | some s => s

/-- Python `str(x)` for an `Optional[int]`. -/
def pyStrOptInt : Option Int → String
  | none => "None"
  | some n => toString n

/-- `mcp_tools.py` line 910: the forced-interrupt error message. -/
def ctrlCMsg : String :=
  "The program did not end normally, Ctrl+C was sent to force interrupt."

/-- `mcp_tools.py` line 914, the condition
`child.exitstatus == 0 or child.exitstatus == 130 or 'keyboardInterrupt'
in last_output`: the third disjunct reads the unassigned local
`last_output`, so it raises `UnboundLocalError` (`.error ()`) whenever
the first two disjuncts are false. -/
def judgeClassify (exitstatus : Option Int) : Except Unit Bool :=
  if exitstatus = some 0 ∨ exitstatus = some 130 then .ok true
  else .error ()

/-- `mcp_tools.py` lines 882-933: the spawn-and-interact part of
`judge`, from `pexpect.spawn` to the final re-read of the log file. -/
def judgeRun (env : JudgeEnv) : JudgeOutcome :=
  -- lines 900-910: escalation; the error is set only when the program
  -- survives both the EOF wait and the post-Ctrl+C grace period
  let err1 : Option String :=
    if env.eofTimeout1 && env.eofTimeout2 then some ctrlCMsg else none
  match judgeClassify env.exitstatus with
  | .ok true => { result := { success := true, log := env.logContent, error := err1 },
                  spawned := true }
  | .ok false =>
      -- lines 917-919 (dead code: `judgeClassify` never returns `ok false`)
      let lastOutput := pyStrOptStr env.before
      let err2 := if err1 = none then
          some ("Program exit status code: " ++ pyStrOptInt env.exitstatus
            ++ "\nLast output: " ++ lastOutput)
        else err1
      { result := { success := false, log := env.logContent, error := err2 },
        spawned := true }
  | .error _ =>
      -- lines 922-929: `except Exception` — the `UnboundLocalError` is
      -- not a `KeyboardInterrupt`, and the assignment to
      -- `result["error"]` is commented out, so `result` is untouched
      { result := { success := false, log := env.logContent, error := err1 },
        spawned := true }

/-- `mcp_tools.py` lines 833-933: `judge`.  `fileExists` is
`os.path.exists`; the missing-input-file check (lines 873-875) fires
only when `input_file` is truthy (so not for `None` and not for `""`). -/
def judge (input_file : Option String) (fileExists : String → Bool)
    (env : JudgeEnv) : JudgeOutcome :=
  if truthy input_file && ! fileExists (input_file.getD "") then
    let msg := "Input file " ++ input_file.getD ""
      ++ " does not exist, please check the path and call again."
    { result := { success := false, log := "", error := some msg },
      spawned := false }
  else judgeRun env

/-! ### The push-style output relay (`mcp_servers.py` lines 110-144)

`read_from_python` is the background task of
`PythonInterpreterMCP.interactive_execute_code`: a `while True` loop
around `child.read_nonblocking(size=1024, timeout=1)` with the
`except pexpect.exceptions.TIMEOUT: pass` and `except ... EOF` handlers
*outside* the loop.  Its sequential behaviour is a function of the
sequence of outcomes of the successive `read_nonblocking` calls. -/

/-- Outcome of one `read_nonblocking` call on the child. -/
inductive ReadEvent where
  | chunk (s : String)
  | timeout
  | eof
  deriving DecidableEq, Repr

/-- What the reader task did before it returned: the strings forwarded
to the WebSocket in order, and whether it closed the connection. -/
structure RelayOutcome where
  sent : List String
  closed : Bool
  deriving DecidableEq, Repr

/-- `mcp_servers.py` lines 118-129: `read_from_python`.  The event list
is the sequence of `read_nonblocking` outcomes offered to the task; an
exhausted list with the task still in its loop models cancellation
(`reader_task.cancel()`, line 141). -/
def read_from_python : List ReadEvent → RelayOutcome
  | [] => { sent := [], closed := false }
  | .chunk s :: rest =>
      let r := read_from_python rest
      { r with sent := (if s != "" then [s] else []) ++ r.sent }
  | .timeout :: _ =>
      -- `except pexpect.exceptions.TIMEOUT: pass` sits outside the
      -- `while True` loop, so the first quiet second ends the task
      { sent := [], closed := false }
  | .eof :: _ =>
      { sent := ["[Python process ended]"], closed := true }

/-- Spec-side definition, following the claim's words for the reader
task: forward every non-empty chunk while the process runs, stop only at
end-of-stream (forwarding the sentinel and closing) or cancellation. -/
def claimedRelay : List ReadEvent → RelayOutcome
  | [] => { sent := [], closed := false }
  | .chunk s :: rest =>
      let r := claimedRelay rest
      { r with sent := (if s != "" then [s] else []) ++ r.sent }
  | .timeout :: rest => claimedRelay rest
  | .eof :: _ =>
      { sent := ["[Python process ended]"], closed := true }

instance {ε α : Type} [DecidableEq ε] [DecidableEq α] :
    DecidableEq (Except ε α) := fun
  | .ok a, .ok b =>
      if h : a = b then isTrue (by rw [h])
      else isFalse (fun hh => by cases hh; exact h rfl)
  | .ok _, .error _ => isFalse (fun hh => by cases hh)
  | .error _, .ok _ => isFalse (fun hh => by cases hh)
  | .error a, .error b =>
      if h : a = b then isTrue (by rw [h])
      else isFalse (fun hh => by cases hh; exact h rfl)

/-! ## Helper lemmas -/

theorem pathComps_ne_empty {s c : String} (h : c ∈ pathComps s) : c ≠ "" := by
  unfold pathComps at h
  have := (List.mem_filter.mp h).2
  have h1 : (c != "") = true := (Bool.and_eq_true .. ▸ this).1
  exact bne_iff_ne.mp h1

theorem comPre_pref : ∀ x y : List String, comPre x y <+: y
  | [], [] => by simp [comPre]
  | [], _ :: _ => by simp [comPre]
  | _ :: _, [] => by simp [comPre]
  | a :: as, b :: bs => by
      unfold comPre
      by_cases h : a = b
      · subst h
        rw [if_pos rfl, List.cons_prefix_cons]
        exact ⟨rfl, comPre_pref as bs⟩
      · rw [if_neg h]
        exact List.nil_prefix

theorem comPre_eq_right : ∀ x y : List String, comPre x y = y ↔ y <+: x
  | [], [] => by simp [comPre]
  | [], b :: bs => by simp [comPre]
  | a :: as, [] => by simp [comPre]
  | a :: as, b :: bs => by
      unfold comPre
      by_cases h : a = b
      · subst h
        rw [if_pos rfl]
        constructor
        · intro hh
          rw [List.cons_prefix_cons]
          exact ⟨rfl, (comPre_eq_right as bs).mp (List.cons_injective.eq_iff.mp hh)⟩
        · intro hh
          rw [List.cons_prefix_cons] at hh
          rw [(comPre_eq_right as bs).mpr hh.2]
      · rw [if_neg h]
        constructor
        · intro hh; exact absurd hh (by simp)
        · intro hh
          rw [List.cons_prefix_cons] at hh
          exact absurd hh.1.symm h

theorem strLength_pos {s : String} (h : s ≠ "") : 0 < s.length := by
  rcases s with ⟨l⟩
  cases l with
  | nil => exact absurd rfl h
  | cons c t => simp [String.length]

theorem joinSlash_cons_cons (c d : String) (t : List String) :
    joinSlash (c :: d :: t) = c ++ "/" ++ joinSlash (d :: t) := rfl

theorem joinSlash_pos {c : String} (r : List String) (hc : c ≠ "") :
    0 < (joinSlash (c :: r)).length := by
  cases r with
  | nil => simpa [joinSlash] using strLength_pos hc
  | cons d t =>
      rw [joinSlash_cons_cons, String.length_append, String.length_append]
      have := strLength_pos hc
      omega

theorem joinSlash_length_lt :
    ∀ (l : List String) (c : String) (r : List String), c ≠ "" →
      (joinSlash l).length < (joinSlash (l ++ c :: r)).length
  | [], c, r, hc => by
      have h0 : (joinSlash []).length = 0 := rfl
      have := joinSlash_pos r hc
      simpa [h0] using this
  | [a], c, r, hc => by
      have h2 : joinSlash ([a] ++ c :: r) = a ++ "/" ++ joinSlash (c :: r) :=
        joinSlash_cons_cons a c r
      rw [h2, String.length_append, String.length_append]
      have h1 : ("/" : String).length = 1 := rfl
      have h3 : joinSlash [a] = a := rfl
      have := joinSlash_pos r hc
      rw [h3]
      omega
  | a :: b :: l, c, r, hc => by
      have ih := joinSlash_length_lt (b :: l) c r hc
      rw [joinSlash_cons_cons,
        show (a :: b :: l) ++ c :: r = a :: ((b :: l) ++ c :: r) from rfl]
      have h2 : joinSlash (a :: ((b :: l) ++ c :: r))
          = a ++ "/" ++ joinSlash ((b :: l) ++ c :: r) := by
        cases l <;> rfl
      rw [h2, String.length_append, String.length_append,
        String.length_append, String.length_append]
      omega

theorem strAppend_left_cancel {s x y : String} (h : s ++ x = s ++ y) : x = y := by
  rcases s with ⟨ls⟩; rcases x with ⟨lx⟩; rcases y with ⟨ly⟩
  have hd : ls ++ lx = ls ++ ly := by
    have := congrArg String.data h
    simpa [String.data_append] using this
  exact congrArg String.mk (List.append_cancel_left hd)

theorem joinSlash_inj_of_pref {l m : List String} (hp : l <+: m)
    (hne : ∀ c ∈ m, c ≠ "") :
    ("/" ++ joinSlash l = "/" ++ joinSlash m) ↔ l = m := by
  constructor
  · intro h
    by_contra hne2
    obtain ⟨t, ht⟩ := hp
    cases t with
    | nil => exact hne2 (by simpa using ht)
    | cons c r =>
        have hc : c ≠ "" := hne c (by rw [← ht]; simp)
        have hlt := joinSlash_length_lt l c r hc
        rw [ht] at hlt
        have : joinSlash l = joinSlash m := strAppend_left_cancel h
        rw [this] at hlt
        omega
  · intro h; rw [h]

theorem anyE_ok {l : List String} {f : String → Except Unit Bool}
    {g : String → Bool} (h : ∀ a ∈ l, f a = .ok (g a)) :
    anyE l f = .ok (l.any g) := by
  induction l with
  | nil => simp [anyE]
  | cons a as ih =>
      have ha := h a (by simp)
      have hrec := ih (fun x hx => h x (by simp [hx]))
      unfold anyE
      rw [ha]
      cases hg : g a with
      | true => simp [hg, List.any_cons]
      | false => simp [hg, List.any_cons, hrec]

theorem anyE_error_head {a : String} {l : List String}
    {f : String → Except Unit Bool} (h : f a = .error ()) :
    anyE (a :: l) f = .error () := by
  unfold anyE
  rw [h]

theorem lookup_set_self : ∀ (st : PyEnvState) (k : SessionKey) (b : Bool),
    lookupState (setState st k b) k = some b
  | [], k, b => by simp [setState, lookupState]
  | (k', b') :: t, k, b => by
      unfold setState
      by_cases h : k' == k
      · simp [h, lookupState]
      · simp only [h, Bool.false_eq_true, if_false]
        unfold lookupState List.find?
        simp only [h]
        exact lookup_set_self t k b

theorem isPrefixOf_append_self (l t : List Char) :
    l.isPrefixOf (l ++ t) = true :=
  List.isPrefixOf_iff_prefix.mpr (List.prefix_append l t)

theorem commonpath_abs {p a : String} (hp : pyStartswith p "/" = true)
    (ha : pyStartswith a "/" = true) :
    commonpath p a
      = .ok ("/" ++ joinSlash (comPre (pathComps p) (pathComps a))) := by
  unfold commonpath
  rw [hp, ha]
  simp

theorem commonpath_check {p a : String} (hp : pyStartswith p "/" = true)
    (ha : pyStartswith a "/" = true)
    (hnorm : "/" ++ joinSlash (pathComps a) = a) :
    (commonpath p a).map (fun c => c == a)
      = .ok (decide (pathComps a <+: pathComps p)) := by
  rw [commonpath_abs hp ha]
  simp only [Except.map, Except.ok.injEq]
  have hXpre : comPre (pathComps p) (pathComps a) <+: pathComps a :=
    comPre_pref _ _
  have hinj := joinSlash_inj_of_pref hXpre
    (fun c hc => pathComps_ne_empty hc)
  by_cases hcase : pathComps a <+: pathComps p
  · have hX : comPre (pathComps p) (pathComps a) = pathComps a :=
      (comPre_eq_right _ _).mpr hcase
    rw [hX, hnorm]
    simp [hcase]
  · have hne2 : ("/" ++ joinSlash (comPre (pathComps p) (pathComps a))) ≠ a := by
      intro hh
      have hh2 : "/" ++ joinSlash (comPre (pathComps p) (pathComps a))
          = "/" ++ joinSlash (pathComps a) := hh.trans hnorm.symm
      exact hcase ((comPre_eq_right _ _).mp (hinj.mp hh2))
    simp [hcase, hne2]

theorem allowed_facts : ∀ a ∈ allowedWritePaths,
    pyStartswith a "/" = true ∧ "/" ++ joinSlash (pathComps a) = a := by
  decide

theorem validate_write_path_abs (p : String) (hp : pyStartswith p "/" = true) :
    validate_write_path true p
      = .ok (allowedWritePaths.any
          (fun a => decide (pathComps a <+: pathComps p))) := by
  unfold validate_write_path
  rw [if_pos rfl]
  exact anyE_ok (fun a ha =>
    commonpath_check hp (allowed_facts a ha).1 (allowed_facts a ha).2)

theorem validate_write_path_rel (p : String)
    (hp : pyStartswith p "/" = false) :
    validate_write_path true p = .error () := by
  have hhead : allowedWritePaths
      = allowedRoot 1 :: (List.range' 2 49).map allowedRoot := rfl
  unfold validate_write_path
  rw [if_pos rfl, hhead]
  have h1 : pyStartswith (allowedRoot 1) "/" = true := by decide
  have hc : commonpath p (allowedRoot 1) = .error () := by
    unfold commonpath
    rw [hp, h1]
    simp
  exact anyE_error_head (by rw [hc]; rfl)

theorem pyFirstToken_python {u : String} (h : pyStartswith u "python" = true) :
    ∃ t, u.data = "python".data ++ t
      ∧ pyFirstToken u
        = .ok ⟨'p' :: 'y' :: 't' :: 'h' :: 'o' :: 'n'
            :: List.takeWhile (fun ch => ! ch.isWhitespace) t⟩ := by
  obtain ⟨t, ht⟩ := List.isPrefixOf_iff_prefix.mp h
  refine ⟨t, ht.symm, ?_⟩
  unfold pyFirstToken
  rw [← ht]
  have hd : List.dropWhile Char.isWhitespace ("python".data ++ t)
      = 'p' :: 'y' :: 't' :: 'h' :: 'o' :: 'n' :: t := by
    show List.dropWhile Char.isWhitespace
      ('p' :: 'y' :: 't' :: 'h' :: 'o' :: 'n' :: t) = _
    simp [List.dropWhile_cons]
  rw [hd]
  have htw : List.takeWhile (fun ch => ! ch.isWhitespace)
      ('p' :: 'y' :: 't' :: 'h' :: 'o' :: 'n' :: t)
      = 'p' :: 'y' :: 't' :: 'h' :: 'o' :: 'n'
          :: List.takeWhile (fun ch => ! ch.isWhitespace) t := by
    simp [List.takeWhile_cons]
  simp only [htw]

theorem firstToken_python_allowed {u : String}
    (h : pyStartswith u "python" = true) :
    ∃ tok, pyFirstToken u = .ok tok
      ∧ SAFE_COMMANDS.any (fun c => pyIn c tok) = true := by
  obtain ⟨t, hdata, htok⟩ := pyFirstToken_python h
  refine ⟨_, htok, ?_⟩
  apply List.any_eq_true.mpr
  refine ⟨"python", by decide, ?_⟩
  show pyIn "python"
    ⟨'p' :: 'y' :: 't' :: 'h' :: 'o' :: 'n'
      :: List.takeWhile (fun ch => ! ch.isWhitespace) t⟩ = true
  unfold pyIn containsSub
  have hpre : ("python".data).isPrefixOf
      ("python".data ++ List.takeWhile (fun ch => ! ch.isWhitespace) t)
      = true := isPrefixOf_append_self _ _
  simp only [show ('p' :: 'y' :: 't' :: 'h' :: 'o' :: 'n'
      :: List.takeWhile (fun ch => ! ch.isWhitespace) t)
      = "python".data ++ List.takeWhile (fun ch => ! ch.isWhitespace) t
      from rfl]
  rw [hpre]
  rfl

theorem risAfterGate_fst (st : PyEnvState) (sid : SessionKey)
    (ui : Option String) (stepOutcome : Except String String) :
    (risAfterGate st sid ui stepOutcome).1
      = (if truthy ui && pyStartswith (ui.getD "") "python"
         then setState st sid true
         else if ui == some "exit" then setState st sid false else st) := by
  unfold risAfterGate
  cases stepOutcome <;> rfl

theorem risAfterGate_snd_ne_gate (st : PyEnvState) (sid : SessionKey)
    (ui : Option String) (stepOutcome : Except String String) (msg : String) :
    (risAfterGate st sid ui stepOutcome).2 ≠ .ok (.gateError msg) := by
  unfold risAfterGate
  cases stepOutcome <;> simp

theorem allowedWritePaths_mem {a : String} :
    a ∈ allowedWritePaths ↔ ∃ i, 1 ≤ i ∧ i ≤ 50 ∧ allowedRoot i = a := by
  unfold allowedWritePaths
  rw [List.mem_map]
  constructor
  · rintro ⟨i, hir, rfl⟩
    obtain ⟨j, hj, hij⟩ := List.mem_range'.mp hir
    exact ⟨i, by omega, by omega, rfl⟩
  · rintro ⟨i, h1, h50, rfl⟩
    exact ⟨i, List.mem_range'.mpr ⟨i - 1, by omega, by omega⟩, rfl⟩

/-- Counterexample to claim C5 as stated: under the canonical reading of
"lies under" (the spec resolves a path to its canonical absolute form
before the containment test), the claim is false — with path
restriction enabled, `validate_write_path` *accepts* the traversal path
`{workspace}/7/reports/../../../etc/passwd`, whose canonical location
is `/tmp/etc/passwd` (second conjunct; the path crosses no symbolic
link), which lies under none of the fifty allowed reports roots (third
conjunct).  The code's `os.path.commonpath` check is purely lexical and
never resolves `..`. -/
theorem write_path_traversal_counterexample :
    validate_write_path true
        "/tmp/code_agent_workspace/7/reports/../../../etc/passwd"
      = .ok true
    ∧ canonComps (pathComps
        "/tmp/code_agent_workspace/7/reports/../../../etc/passwd")
      = ["tmp", "etc", "passwd"]
    ∧ ∀ i < 51, ¬ canonLiesUnder
        "/tmp/code_agent_workspace/7/reports/../../../etc/passwd"
        (allowedRoot i) :=
  ⟨by decide, by decide, by decide⟩

/-- Claim C5 as amended: with path restriction enabled,
`validate_write_path` returns true exactly for the paths *lexically*
under `{WORKSPACE_DIR}/{i}/reports` for some `i` between 1 and 50 —
absolute paths whose components (with `""` and `"."` discarded but
`".."` kept as an ordinary, unresolved component, as the code's
`os.path.commonpath` check computes) extend those of the root; in
particular it returns true for `{workspace}/7/reports/round1.jsonl` and
false for `{workspace}/7/src/main.py`, with `workspace` the configured
root `/tmp/code_agent_workspace`.  Because the check is lexical,
`..`-traversal paths below a reports root are accepted even though
their canonical location is outside it (see
`write_path_traversal_counterexample`). -/
theorem validate_write_path_spec (p : String) :
    (validate_write_path true p = .ok true ↔
      ∃ i, 1 ≤ i ∧ i ≤ 50 ∧ liesUnder p (allowedRoot i))
    ∧ validate_write_path true (WORKSPACE_DIR ++ "/7/reports/round1.jsonl")
        = .ok true
    ∧ validate_write_path true (WORKSPACE_DIR ++ "/7/src/main.py")
        = .ok false := by
  refine ⟨?_, by decide, by decide⟩
  cases hp : pyStartswith p "/" with
  | true =>
      rw [validate_write_path_abs p hp]
      simp only [Except.ok.injEq]
      rw [List.any_eq_true]
      constructor
      · rintro ⟨a, ha, hdec⟩
        obtain ⟨i, h1, h50, rfl⟩ := allowedWritePaths_mem.mp ha
        exact ⟨i, h1, h50, hp, of_decide_eq_true hdec⟩
      · rintro ⟨i, h1, h50, hstart, hpref⟩
        exact ⟨allowedRoot i, allowedWritePaths_mem.mpr ⟨i, h1, h50, rfl⟩,
          decide_eq_true hpref⟩
  | false =>
      rw [validate_write_path_rel p hp]
      constructor
      · intro h; exact absurd h (by simp)
      · rintro ⟨i, -, -, hstart, -⟩
        rw [hp] at hstart
        exact absurd hstart (by simp)

/-- Witness for `validate_write_path_spec`: the accepted side of the
equivalence exhibited at a concrete path under root 3. -/
theorem validate_write_path_spec_witness :
    validate_write_path true "/tmp/code_agent_workspace/3/reports/a.txt"
      = .ok true
    ∧ ∃ i, 1 ≤ i ∧ i ≤ 50
        ∧ liesUnder "/tmp/code_agent_workspace/3/reports/a.txt"
            (allowedRoot i) := by
  have h :=
    (validate_write_path_spec "/tmp/code_agent_workspace/3/reports/a.txt").1
  exact ⟨by decide, h.mp (by decide)⟩

/-- Claim C10: if the `ENABLE_PATH_RESTRICTION` environment variable is
set to any value other than `true` (case-insensitive), then
`validate_write_path` returns true for every path string whatsoever,
so the write-path sandbox and the `write_file`/`delete_file` guards
built on it are disabled wholesale. -/
theorem restriction_disabled_spec (v p : String)
    (hv : pyLower v ≠ "true") :
    validate_write_path (enablePathRestriction (some v)) p = .ok true
    ∧ write_file_gate (enablePathRestriction (some v)) p = .ok .proceeded
    ∧ delete_file_gate (enablePathRestriction (some v)) p = .ok .proceeded := by
  have he : enablePathRestriction (some v) = false := by
    unfold enablePathRestriction
    simpa using hv
  rw [he]
  exact ⟨rfl, rfl, rfl⟩

/-- Witness for `restriction_disabled_spec` at `v = "FALSE"` and
`p = "/etc/passwd"`. -/
theorem restriction_disabled_spec_witness :
    pyLower "FALSE" ≠ "true"
    ∧ (validate_write_path (enablePathRestriction (some "FALSE")) "/etc/passwd"
          = .ok true
       ∧ write_file_gate (enablePathRestriction (some "FALSE")) "/etc/passwd"
          = .ok .proceeded
       ∧ delete_file_gate (enablePathRestriction (some "FALSE")) "/etc/passwd"
          = .ok .proceeded) :=
  ⟨by decide, restriction_disabled_spec "FALSE" "/etc/passwd" (by decide)⟩

/-- Claim C1 (a code bug): the claim says a child exiting with a status
other than 0/130 yields `success=true` when the captured output contains
the marker `keyboardInterrupt`, and otherwise `success=false` with an
error describing the exit status and last output.  In the code the
classification at `mcp_tools.py` line 914 reads the local `last_output`
before its only assignment (line 917, inside the `else` of that very
`if`), so for any exit status other than 0/130 the condition raises
`UnboundLocalError`, the `except Exception` handler swallows it, and the
run returns `success=false` with `error=None` — regardless of the
marker, and without the descriptive message.  Exit statuses 0 and 130
short-circuit the condition and are classified `success=true` as
claimed. -/
theorem judge_classification_bug :
    judge none (fun _ => true)
        ⟨some 1, false, false, some "keyboardInterrupt",
          "program: keyboardInterrupt"⟩
      = ⟨⟨false, "program: keyboardInterrupt", none⟩, true⟩
    ∧ judgeClassify (some 1) = .error ()
    ∧ judge none (fun _ => true) ⟨some 0, false, false, none, "log"⟩
      = ⟨⟨true, "log", none⟩, true⟩
    ∧ judge none (fun _ => true) ⟨some 130, false, false, none, "log"⟩
      = ⟨⟨true, "log", none⟩, true⟩ :=
  ⟨rfl, rfl, rfl, rfl⟩

/-- Claim C3 (a code bug): the claim (and the docstring of
`read_from_python`, "continuously read Python output and push to
frontend") says the background reader keeps forwarding non-empty chunks
until end-of-stream or cancellation.  In the code the
`except pexpect.exceptions.TIMEOUT: pass` handler sits *outside* the
`while True` loop (`mcp_servers.py` lines 120-126), so the first
1-second read timeout terminates the task: a chunk produced after one
quiet second is never forwarded (first conjunct), although the claimed
behaviour forwards it (second conjunct).  The end-of-stream path does
forward the sentinel and close (third conjunct). -/
theorem relay_timeout_bug :
    read_from_python [.timeout, .chunk "x"] = ⟨[], false⟩
    ∧ claimedRelay [.timeout, .chunk "x"] = ⟨["x"], false⟩
    ∧ read_from_python [.chunk "a", .chunk "", .eof]
      = ⟨["a", "[Python process ended]"], true⟩ :=
  ⟨rfl, rfl, rfl⟩

/-- Counterexample to claim C8: `input_file = ""` is non-null and names
a path that does not exist (`os.path.exists("") = False`), yet the
missing-file check at `mcp_tools.py` line 873 is guarded by the
*truthiness* of `input_file`, so the run proceeds to spawn the child and
here returns `success=true` —  not the claimed `success=false` with an
error naming the missing file and no spawn. -/
theorem judge_empty_input_counterexample :
    judge (some "") (fun _ => false) ⟨some 0, false, false, none, ""⟩
      = ⟨⟨true, "", none⟩, true⟩ :=
  rfl

/-- Claim C8 as amended: for every call to `judge` with a non-null and
*non-empty* `input_file` whose path does not exist, the result has
`success=false`, an error naming the missing input file, and an empty
log, and no child process is spawned. -/
theorem judge_missing_input_amended (f : String) (fileExists : String → Bool)
    (env : JudgeEnv) (hf : f ≠ "") (hex : fileExists f = false) :
    judge (some f) fileExists env
      = ⟨⟨false, "", some ("Input file " ++ f
          ++ " does not exist, please check the path and call again.")⟩,
         false⟩ := by
  have ht : truthy (some f) = true := bne_iff_ne.mpr hf
  unfold judge
  simp [ht, hex]

/-- Witness for `judge_missing_input_amended` at `f = "missing.in"`. -/
theorem judge_missing_input_amended_witness :
    ("missing.in" : String) ≠ ""
    ∧ (fun _ : String => false) "missing.in" = false
    ∧ judge (some "missing.in") (fun _ => false)
        ⟨some 0, false, false, none, ""⟩
      = ⟨⟨false, "", some "Input file missing.in does not exist, please check the path and call again."⟩,
         false⟩ :=
  ⟨by decide, rfl,
    judge_missing_input_amended "missing.in" (fun _ => false)
      ⟨some 0, false, false, none, ""⟩ (by decide) rfl⟩

/-- Counterexample to claim C9: killing a session id that is not in the
registry produces the *error* dictionary `{error, output: ""}` (the
caught `SessionNotFoundError`), not the claimed success/termination
message. -/
theorem kill_unknown_session_counterexample :
    kill_shell_session [] "s1" = ([], .errored "SessionNotFoundError: s1" "") :=
  rfl

/-- Claim C9 as amended: `kill_shell_session` always returns a
structured result and never raises (every outcome of `terminate` is
converted to a dictionary); killing a live session removes it and
returns the termination message; killing a non-existent (or
already-killed) session returns the error dictionary
`{error, output: ""}` rather than a success message — so the second of
two kills of the same session yields an error result, not the same
success message. -/
theorem kill_session_amended (sessions : List String) (sid : String) :
    (sid ∈ sessions →
      kill_shell_session sessions sid
        = (sessions.filter (fun s => s != sid),
           .killed ("Session " ++ sid ++ " has been terminated")
             ("Session " ++ sid ++ " has been terminated")))
    ∧ (sid ∉ sessions →
      kill_shell_session sessions sid
        = (sessions, .errored ("SessionNotFoundError: " ++ sid) ""))
    ∧ (sid ∈ sessions →
      (kill_shell_session (kill_shell_session sessions sid).1 sid).2
        = .errored ("SessionNotFoundError: " ++ sid) "") := by
  refine ⟨?_, ?_, ?_⟩
  · intro hmem
    unfold kill_shell_session terminate
    rw [if_pos (List.elem_iff.mpr hmem)]
  · intro hmem
    unfold kill_shell_session terminate
    rw [if_neg (fun hc => hmem (List.elem_iff.mp hc))]
  · intro hmem
    have h1 : (kill_shell_session sessions sid).1
        = sessions.filter (fun s => s != sid) := by
      unfold kill_shell_session terminate
      rw [if_pos (List.elem_iff.mpr hmem)]
    rw [h1]
    have h2 : sid ∉ sessions.filter (fun s => s != sid) := by
      intro hc
      exact absurd rfl (bne_iff_ne.mp (List.mem_filter.mp hc).2)
    unfold kill_shell_session terminate
    rw [if_neg (fun hc => h2 (List.elem_iff.mp hc))]

/-- Witness for `kill_session_amended` at a one-session registry. -/
theorem kill_session_amended_witness :
    ("s1" : String) ∈ ["s1"]
    ∧ kill_shell_session ["s1"] "s1"
      = ([], .killed "Session s1 has been terminated"
          "Session s1 has been terminated")
    ∧ (kill_shell_session (kill_shell_session ["s1"] "s1").1 "s1").2
      = .errored "SessionNotFoundError: s1" "" := by
  have h := kill_session_amended ["s1"] "s1"
  have hm : ("s1" : String) ∈ ["s1"] := by decide
  exact ⟨hm, h.1 hm, h.2.2 hm⟩

/-- Counterexample to claim C6: with path restriction enabled, a
relative path makes `os.path.commonpath` raise `ValueError` (mixing an
absolute allowed root with a relative path), which `validate_write_path`
does not catch — it propagates instead of returning `false`. -/
theorem validate_write_path_relative_counterexample :
    validate_write_path true "relative.txt" = .error () :=
  rfl

/-- Claim C6 as amended: neither validator is fail-closed in the
claimed sense.  `validate_write_path` with restriction enabled raises
`ValueError` (uncaught, modelled `.error ()`) for every relative path
instead of returning false, while with restriction disabled it returns
true; `validate_read_file_path` returns *true* (fail open, not the
claimed false) for every relative path and for every `/tmp`-prefixed
path, without consulting the filesystem — and on any other absolute
path it propagates, rather than catches, a `ValueError` raised by
`Path.resolve` on a malformed path (e.g. one with an embedded NUL
byte). -/
theorem path_validators_amended (p : String)
    (resolve : String → Except Unit String)
    (hp : pyStartswith p "/" = false) :
    validate_write_path true p = .error ()
    ∧ validate_read_file_path resolve p = .ok true
    ∧ validate_write_path false p = .ok true
    ∧ (∀ q, pyStartswith q "/tmp" = true →
        validate_read_file_path resolve q = .ok true)
    ∧ (∀ q ws, pyStartswith q "/tmp" = false → pyStartswith q "/" = true →
        resolve WORKSPACE_DIR = .ok ws → resolve q = .error () →
        validate_read_file_path resolve q = .error ()) := by
  refine ⟨validate_write_path_rel p hp, ?_, rfl, ?_, ?_⟩
  · have htmp : pyStartswith p "/tmp" = false := by
      cases hq : pyStartswith p "/tmp" with
      | false => rfl
      | true =>
          exfalso
          have h1 : "/tmp".data <+: p.data :=
            List.isPrefixOf_iff_prefix.mp hq
          have h2 : "/".data <+: "/tmp".data := by decide
          have h3 : pyStartswith p "/" = true :=
            List.isPrefixOf_iff_prefix.mpr (h2.trans h1)
          rw [h3] at hp
          exact absurd hp (by simp)
    unfold validate_read_file_path
    simp [htmp, hp]
  · intro q hq
    unfold validate_read_file_path
    simp [hq]
  · intro q ws hq1 hq2 hws hqe
    unfold validate_read_file_path
    simp only [hq1, Bool.false_eq_true, if_false, hq2, Bool.not_true,
      if_false, SANDBOX_MODE, if_true, hws, hqe]

/-- Witness for `path_validators_amended` at the relative path
`"relative.txt"`, the scratch path `"/tmp/x"`, and a malformed absolute
path (embedded NUL byte) on which the resolution oracle raises. -/
theorem path_validators_amended_witness :
    pyStartswith "relative.txt" "/" = false
    ∧ pyStartswith "/tmp/x" "/tmp" = true
    ∧ pyStartswith "/a\x00b" "/tmp" = false
    ∧ pyStartswith "/a\x00b" "/" = true
    ∧ (validate_write_path true "relative.txt" = .error ()
       ∧ validate_read_file_path
           (fun s => if s = "/a\x00b" then .error () else .ok s)
           "relative.txt" = .ok true
       ∧ validate_write_path false "relative.txt" = .ok true)
    ∧ validate_read_file_path
        (fun s => if s = "/a\x00b" then .error () else .ok s) "/tmp/x"
      = .ok true
    ∧ validate_read_file_path
        (fun s => if s = "/a\x00b" then .error () else .ok s) "/a\x00b"
      = .error () := by
  have h := path_validators_amended "relative.txt"
    (fun s => if s = "/a\x00b" then .error () else .ok s) (by decide)
  exact ⟨by decide, by decide, by decide, by decide,
    ⟨h.1, h.2.1, h.2.2.1⟩,
    h.2.2.2.1 "/tmp/x" (by decide),
    h.2.2.2.2 "/a\x00b" WORKSPACE_DIR (by decide) (by decide) rfl rfl⟩

/-- Counterexample to claim C4: when the wrapped `step` raises,
`start_interative_shell` returns `output = None` (it copies the local
`session_id`, which is `None`) rather than the claimed `output = ""`. -/
theorem start_shell_error_output_counterexample :
    start_interative_shell (.error "boom")
      = .stepError "boom" none none false true
    ∧ start_interative_shell (.error "boom")
      ≠ .stepError "boom" none (some "") false true := by
  exact ⟨rfl, by decide⟩

/-- Claim C4 as amended: if the wrapped `step` raises, both step-style
calls return the error dictionary and propagate nothing;
`run_interactive_shell` returns
`{error, session_id, output: "", waiting: false, finished: true}` as
claimed — on an input-less call, on any call whose session id is absent
from `python_env_state` (the flag is default-inserted false, covering
the ordinary first input call), on any call with the interpreter-mode
flag off, on any flag-on call with non-truthy input (`None` or `""`),
and on any gated call whose first token passes the gate — while
`start_interative_shell` returns the same shape except `output = None`
(the null session id) instead of `""`.  These cases are exactly the
ones in which the `step` call is reached. -/
theorem step_error_result_amended (e : String) (st : PyEnvState)
    (sid : SessionKey) :
    (run_interactive_shell st sid none (.error e)).2
      = .ok (.stepError e sid (some "") false true)
    ∧ (∀ u : String, lookupState st sid = none →
      (run_interactive_shell st sid (some u) (.error e)).2
        = .ok (.stepError e sid (some "") false true))
    ∧ (∀ u : String, lookupState st sid = some false →
      (run_interactive_shell st sid (some u) (.error e)).2
        = .ok (.stepError e sid (some "") false true))
    ∧ (∀ ui : Option String, lookupState st sid = some true →
      truthy ui = false →
      (run_interactive_shell st sid ui (.error e)).2
        = .ok (.stepError e sid (some "") false true))
    ∧ (∀ (u tok : String), lookupState st sid = some true →
      truthy (some u) = true → pyFirstToken u = .ok tok →
      SAFE_COMMANDS.any (fun c => pyIn c tok) = true →
      (run_interactive_shell st sid (some u) (.error e)).2
        = .ok (.stepError e sid (some "") false true))
    ∧ start_interative_shell (.error e)
      = .stepError e none none false true := by
  have hsnd : ∀ (st' : PyEnvState) (ui : Option String),
      (risAfterGate st' sid ui (.error e)).2
        = .ok (.stepError e sid (some "") false true) := by
    intro st' ui
    unfold risAfterGate
    rfl
  refine ⟨?_, ?_, ?_, ?_, ?_, rfl⟩
  · unfold run_interactive_shell
    cases h : (lookupState st sid).isSome <;>
      simp [h, truthy, risAfterGate]
  · intro u hst
    unfold run_interactive_shell
    simp only [hst, Option.isSome_none, Bool.false_eq_true, if_false,
      lookup_set_self, Option.getD_some, Bool.false_and, hsnd]
  · intro u hst
    unfold run_interactive_shell
    simp only [hst, Option.isSome_some, if_true, Option.getD_some,
      Bool.false_and, Bool.false_eq_true, if_false, hsnd]
  · intro ui hst htr
    unfold run_interactive_shell
    simp only [hst, Option.isSome_some, if_true, Option.getD_some,
      Bool.true_and, htr, Bool.false_eq_true, if_false, hsnd]
  · intro u tok hst htr htok hallow
    unfold run_interactive_shell
    simp only [hst, Option.isSome_some, if_true, Option.getD_some,
      Bool.true_and, htr, if_true, htok, hallow, Bool.not_true,
      Bool.false_eq_true, if_false, hsnd]

/-- Witness for `step_error_result_amended` at concrete sessions: the
input-less call, the absent-session-id first input call, the flag-off
case at input `"ls"`, the flag-on empty-string input, and the gated
case at input `"ls -la"`. -/
theorem step_error_result_amended_witness :
    (run_interactive_shell [(some "w", false)] (some "w") none
        (.error "boom")).2
      = .ok (.stepError "boom" (some "w") (some "") false true)
    ∧ lookupState [] (some "w") = none
    ∧ (run_interactive_shell [] (some "w") (some "echo hi")
        (.error "boom")).2
      = .ok (.stepError "boom" (some "w") (some "") false true)
    ∧ lookupState [(some "w", false)] (some "w") = some false
    ∧ (run_interactive_shell [(some "w", false)] (some "w") (some "ls")
        (.error "boom")).2
      = .ok (.stepError "boom" (some "w") (some "") false true)
    ∧ lookupState [(some "w", true)] (some "w") = some true
    ∧ truthy (some "") = false
    ∧ (run_interactive_shell [(some "w", true)] (some "w") (some "")
        (.error "boom")).2
      = .ok (.stepError "boom" (some "w") (some "") false true)
    ∧ truthy (some "ls -la") = true
    ∧ pyFirstToken "ls -la" = .ok "ls"
    ∧ SAFE_COMMANDS.any (fun c => pyIn c "ls") = true
    ∧ (run_interactive_shell [(some "w", true)] (some "w") (some "ls -la")
        (.error "boom")).2
      = .ok (.stepError "boom" (some "w") (some "") false true) :=
  ⟨(step_error_result_amended "boom" [(some "w", false)] (some "w")).1,
   rfl,
   (step_error_result_amended "boom" [] (some "w")).2.1 "echo hi" rfl,
   rfl,
   (step_error_result_amended "boom" [(some "w", false)] (some "w")).2.2.1
     "ls" rfl,
   rfl, rfl,
   (step_error_result_amended "boom" [(some "w", true)] (some "w")).2.2.2.1
     (some "") rfl rfl,
   rfl, rfl, by decide,
   (step_error_result_amended "boom" [(some "w", true)]
       (some "w")).2.2.2.2.1 "ls -la" "ls" rfl rfl rfl (by decide)⟩

/-- Counterexample to claim C7: with the interpreter-mode flag true, the
explicit exit command `"exit"` is rejected by the safety gate (no
allow-list fragment occurs in `"exit"`), and `run_interactive_shell`
returns at line 674 *before* the flag update at line 679 — so the flag
stays true instead of being updated back to false as claimed. -/
theorem exit_flag_counterexample :
    run_interactive_shell [(some "s", true)] (some "s") (some "exit")
        (.ok "r")
      = ([(some "s", true)], .ok (.gateError sandboxMsg))
    ∧ lookupState [(some "s", true)] (some "s") = some true :=
  ⟨rfl, rfl⟩

/-- Claim C7 as amended: on a `run_interactive_shell` call with user
input, (1) an input starting with `"python"` always sets the session's
interpreter-mode flag to true (such an input always passes the gate,
since its first token contains the fragment `"python"`); (2) the input
`"exit"` resets the flag to false only when the flag is currently false
(where the reset is a no-op); (3) when the flag is true, `"exit"` is
rejected by the safety gate before the update, so the call returns the
gate error and the flag stays true; (4) inputs that neither start with
`"python"` nor equal `"exit"` leave the flag unchanged on every path
(gate rejection, gate `IndexError`, or a `step` call). -/
theorem interpreter_flag_amended :
    (∀ (st : PyEnvState) (sid : SessionKey)
        (stepOutcome : Except String String) (u : String),
      pyStartswith u "python" = true →
      lookupState ((run_interactive_shell st sid (some u) stepOutcome).1) sid
        = some true)
    ∧ (∀ (st : PyEnvState) (sid : SessionKey)
        (stepOutcome : Except String String),
      lookupState st sid = some false →
      lookupState
          ((run_interactive_shell st sid (some "exit") stepOutcome).1) sid
        = some false)
    ∧ (∀ (st : PyEnvState) (sid : SessionKey)
        (stepOutcome : Except String String),
      lookupState st sid = some true →
      run_interactive_shell st sid (some "exit") stepOutcome
        = (st, .ok (.gateError sandboxMsg)))
    ∧ (∀ (st : PyEnvState) (sid : SessionKey)
        (stepOutcome : Except String String) (u : String) (b : Bool),
      lookupState st sid = some b →
      pyStartswith u "python" = false → u ≠ "exit" →
      lookupState ((run_interactive_shell st sid (some u) stepOutcome).1) sid
        = some b) := by
  refine ⟨?_, ?_, ?_, ?_⟩
  · intro st sid so u hu
    obtain ⟨tok, htok, hallow⟩ := firstToken_python_allowed hu
    have hne : u ≠ "" := by
      intro he
      rw [he] at hu
      exact absurd hu (by decide)
    have htr : truthy (some u) = true := bne_iff_ne.mpr hne
    have hris : ∀ st' : PyEnvState,
        (risAfterGate st' sid (some u) so).1 = setState st' sid true := by
      intro st'
      rw [risAfterGate_fst]
      simp [htr, hu]
    unfold run_interactive_shell
    simp only [htr, Bool.and_true, Option.getD_some, htok, hallow,
      Bool.not_true, Bool.false_eq_true, if_false]
    cases hip : (lookupState
        (if (lookupState st sid).isSome then st else setState st sid false)
        sid).getD false <;>
      simp only [hip, if_true, if_false, Bool.false_eq_true, hris,
        lookup_set_self]
  · intro st sid so hst
    unfold run_interactive_shell
    simp only [hst, Option.isSome_some, if_true, Option.getD_some,
      Bool.false_and, Bool.false_eq_true, if_false, risAfterGate_fst]
    simp only [Option.getD_some,
      show pyStartswith "exit" "python" = false from by decide,
      Bool.and_false, Bool.false_eq_true, if_false,
      show ((some "exit" : Option String) == some "exit") = true from rfl,
      if_true, lookup_set_self]
  · intro st sid so hst
    unfold run_interactive_shell
    simp only [hst, Option.isSome_some, if_true, Option.getD_some,
      Bool.true_and,
      show truthy (some "exit") = true from rfl, if_true,
      show pyFirstToken "exit" = .ok "exit" from rfl,
      show (SAFE_COMMANDS.any (fun c => pyIn c "exit")) = false from by decide,
      Bool.not_false, if_true]
  · intro st sid so u b hst hpy hne
    have hris : ∀ st' : PyEnvState,
        (risAfterGate st' sid (some u) so).1 = st' := by
      intro st'
      rw [risAfterGate_fst]
      simp only [Option.getD_some, hpy, Bool.and_false, Bool.false_eq_true,
        if_false]
      simp [hne]
    unfold run_interactive_shell
    simp only [hst, Option.isSome_some, if_true, Option.getD_some]
    cases b with
    | false =>
        simp only [Bool.false_and, Bool.false_eq_true, if_false, hris, hst]
    | true =>
        cases htr : truthy (some u) with
        | false =>
            simp only [htr, Bool.and_false, Bool.false_eq_true, if_false,
              hris, hst]
        | true =>
            simp only [htr, Bool.and_self, if_true]
            cases hft : pyFirstToken u with
            | error e =>
                simp only [Option.getD_some, hft]
                exact hst
            | ok tok =>
                simp only [Option.getD_some, hft]
                cases hallow : SAFE_COMMANDS.any (fun c => pyIn c tok) with
                | false =>
                    simp only [hallow, Bool.not_false, if_true]
                    exact hst
                | true =>
                    simp only [hallow, Bool.not_true, Bool.false_eq_true,
                      if_false, hris]
                    exact hst

/-- Witness for `interpreter_flag_amended`, instantiating the four
conjuncts at concrete sessions and inputs. -/
theorem interpreter_flag_amended_witness :
    lookupState ((run_interactive_shell [] (some "w") (some "python")
        (.ok "r")).1) (some "w") = some true
    ∧ lookupState ((run_interactive_shell [(some "w", false)] (some "w")
        (some "exit") (.ok "r")).1) (some "w") = some false
    ∧ run_interactive_shell [(some "w", true)] (some "w") (some "exit")
        (.ok "r")
      = ([(some "w", true)], .ok (.gateError sandboxMsg))
    ∧ lookupState ((run_interactive_shell [(some "w", true)] (some "w")
        (some "ls -la") (.ok "r")).1) (some "w") = some true :=
  ⟨interpreter_flag_amended.1 [] (some "w") (.ok "r") "python" (by decide),
   interpreter_flag_amended.2.1 [(some "w", false)] (some "w") (.ok "r") rfl,
   interpreter_flag_amended.2.2.1 [(some "w", true)] (some "w") (.ok "r") rfl,
   interpreter_flag_amended.2.2.2 [(some "w", true)] (some "w") (.ok "r")
     "ls -la" true rfl (by decide) (by decide)⟩

/-- Counterexample to claim C2: the command text `"foo ls"` contains the
allow-list fragment `"ls"` as a substring, so the claimed accept-iff-
substring contract accepts it; but the interpreter-mode gate of
`run_interactive_shell` tests the fragments only against the *first
whitespace-separated token* (`user_input.split()[0]`, line 672), which
is `"foo"`, and rejects the command. -/
theorem gate_fragment_counterexample :
    claimedIsCommandAllowed "foo ls" = true
    ∧ (run_interactive_shell [(some "s", true)] (some "s") (some "foo ls")
        (.ok "r")).2 = .ok (.gateError sandboxMsg) :=
  ⟨rfl, rfl⟩

/-- Claim C2 as amended: `run_system_command` in sandbox mode accepts a
command iff some allow-list fragment occurs as a substring of the whole
command text, and a disallowed command yields the structured gate error;
the interpreter-mode gate of `run_interactive_shell`, however, applies
the fragment-substring test to the *first whitespace-separated token* of
the input only: with the session in interpreter mode and a tokenisable
input, the call returns the gate-error dictionary iff no fragment occurs
in that first token. -/
theorem command_gate_amended :
    (∀ cmd : String,
      run_system_command cmd = .executed
        ↔ claimedIsCommandAllowed cmd = true)
    ∧ (∀ (st : PyEnvState) (sid : SessionKey) (u : String)
        (stepOutcome : Except String String) (tok : String),
      lookupState st sid = some true →
      truthy (some u) = true →
      pyFirstToken u = .ok tok →
      ((run_interactive_shell st sid (some u) stepOutcome).2
          = .ok (.gateError sandboxMsg)
        ↔ claimedIsCommandAllowed tok = false)) := by
  constructor
  · intro cmd
    unfold run_system_command claimedIsCommandAllowed SANDBOX_MODE
    cases h : SAFE_COMMANDS.any (fun c => pyIn c cmd) <;> simp [h]
  · intro st sid u so tok hst htr htok
    unfold run_interactive_shell
    simp only [hst, Option.isSome_some, if_true, Option.getD_some,
      Bool.true_and, htr, if_true, htok]
    cases h : SAFE_COMMANDS.any (fun c => pyIn c tok) with
    | false =>
        simp only [h, Bool.not_false, if_true]
        unfold claimedIsCommandAllowed
        simp [h]
    | true =>
        simp only [h, Bool.not_true, Bool.false_eq_true, if_false]
        unfold claimedIsCommandAllowed
        simp only [h]
        constructor
        · intro hh
          exact absurd hh (risAfterGate_snd_ne_gate st sid (some u) so
            sandboxMsg)
        · intro hh
          exact absurd hh (by simp)

/-- Witness for `command_gate_amended`: the whole-text gate at
`"rm -rf /"` (no fragment, rejected) and the first-token gate at
`"foo ls"` (fragment in text but not in first token, rejected). -/
theorem command_gate_amended_witness :
    (run_system_command "rm -rf /" = .executed
      ↔ claimedIsCommandAllowed "rm -rf /" = true)
    ∧ lookupState [(some "s", true)] (some "s") = some true
    ∧ truthy (some "foo ls") = true
    ∧ pyFirstToken "foo ls" = .ok "foo"
    ∧ ((run_interactive_shell [(some "s", true)] (some "s") (some "foo ls")
          (.ok "r")).2 = .ok (.gateError sandboxMsg)
        ↔ claimedIsCommandAllowed "foo" = false) :=
  ⟨command_gate_amended.1 "rm -rf /", rfl, rfl, rfl,
   command_gate_amended.2 [(some "s", true)] (some "s") "foo ls" (.ok "r")
     "foo" rfl rfl rfl⟩

end PRDBench
